import Mathlib

/-!
# Library Recommendation System — verification of spec claims

Shallow embedding of the client-side logic of the library-recommendation web
application: the route guard (`ProtectedRoute`), the API client's
response handling (`services/api.ts`), the reading-list selector, the
review-submission pre-checks, the auth-context operations, and the
email-verification error mapping. Each definition mirrors the corresponding
TypeScript function; effectful pieces (HTTP responses, identity-service call
outcomes) are passed in explicitly as data.
-/

namespace LibraryRec

/-! ## Data model (`src/types/index.ts`) -/

/-- Role classification, `'user' | 'admin' | 'moderator'` in the source. -/
inductive Role where
  | user
  | admin
  | moderator
deriving DecidableEq, Repr

/-- The `User` record of `types/index.ts` (fields used by the claims). -/
structure User where
  id : String
  email : String
  name : String
  role : Role
  createdAt : String
deriving DecidableEq, Repr

/-- The `ReadingList` record of `types/index.ts` (fields used by the claims). -/
structure ReadingList where
  id : String
  userId : String
  name : String
  description : String
  bookIds : List String
deriving DecidableEq, Repr

/-- Snapshot of the auth context as read by components:
`user`, `isLoading`; `isAuthenticated` is derived (`!!user`). -/
structure AuthSnapshot where
  user : Option User
  isLoading : Bool
deriving DecidableEq, Repr

/-- `isAuthenticated: !!user` in `AuthContext.tsx`. -/
def AuthSnapshot.isAuthenticated (s : AuthSnapshot) : Bool :=
  s.user.isSome

/-! ## Route guard (`src/components/common/ProtectedRoute.tsx`) -/

/-- Props of `ProtectedRoute` (defaults as in the source:
`requireAdmin = false`, `requireModerator = false`, `allowedRoles` optional). -/
structure ProtectedRouteProps where
  requireAdmin : Bool := false
  requireModerator : Bool := false
  allowedRoles : Option (List Role) := none
deriving DecidableEq, Repr

/-- What `ProtectedRoute` returns: the loading spinner, a `<Navigate to=... />`
redirect, or the guarded children. -/
inductive RouteResult where
  | loadingSpinner
  | navigate (dest : String)
  | children
deriving DecidableEq, Repr

/-- `user?.role` — the role read through the optional chain. -/
def AuthSnapshot.roleOfUser (s : AuthSnapshot) : Option Role :=
  s.user.map User.role

/-- The body of `ProtectedRoute`, clause for clause:
spinner while loading; `/login` when unauthenticated; then the three role
checks (`requireAdmin`, `requireModerator`, `allowedRoles`), each redirecting
to `/`; otherwise the children. `user?.role || ''` fails both the admin and
the moderator test when `user` is absent, and `user?.role || 'user'` defaults
to `user` in the `allowedRoles` test, exactly as the optional chains do. -/
def ProtectedRoute (auth : AuthSnapshot) (p : ProtectedRouteProps) : RouteResult :=
  if auth.isLoading then
    .loadingSpinner
  else if auth.isAuthenticated = false then
    .navigate "/login"
  else if p.requireAdmin && !(auth.roleOfUser == some Role.admin) then
    .navigate "/"
  else if p.requireModerator
      && !([some Role.admin, some Role.moderator].contains auth.roleOfUser) then
    .navigate "/"
  else
    match p.allowedRoles with
    | some rs => if rs.contains (auth.roleOfUser.getD Role.user) then .children else .navigate "/"
    | none => .children

/-- The combined role policy the three checks of `ProtectedRoute` implement
for an authenticated user: admin required, moderator-or-admin required, and
membership in `allowedRoles` when that prop is given. -/
def roleSatisfies (p : ProtectedRouteProps) (r : Role) : Bool :=
  (!p.requireAdmin || r == Role.admin)
    && (!p.requireModerator || r == Role.admin || r == Role.moderator)
    && (match p.allowedRoles with
        | some rs => rs.contains r
        | none => true)

/-- C1: once loading has completed, an unauthenticated visitor is always
redirected to `/login`, and the guarded children are not rendered, whatever
the role props are. -/
theorem protectedRoute_unauthenticated_redirects_login
    (auth : AuthSnapshot) (p : ProtectedRouteProps)
    (hl : auth.isLoading = false) (ha : auth.isAuthenticated = false) :
    ProtectedRoute auth p = .navigate "/login" ∧
      ProtectedRoute auth p ≠ .children := by
  unfold ProtectedRoute
  rw [hl, ha]
  simp

/-- Witness for C1: a concrete unauthenticated, non-loading snapshot is
redirected to `/login` by an admin-only route. -/
theorem protectedRoute_unauthenticated_redirects_login_witness :
    ProtectedRoute ⟨none, false⟩ ⟨true, false, none⟩ = .navigate "/login" ∧
      ProtectedRoute ⟨none, false⟩ ⟨true, false, none⟩ ≠ .children :=
  protectedRoute_unauthenticated_redirects_login ⟨none, false⟩ ⟨true, false, none⟩ rfl rfl

/-- C2: for an authenticated user (loading completed), the guarded children
are rendered exactly when the user's role satisfies the route's combined role
restriction, and whenever it does not, the result is a redirect to `/`. -/
theorem protectedRoute_role_gate
    (auth : AuthSnapshot) (p : ProtectedRouteProps) (u : User)
    (hl : auth.isLoading = false) (hu : auth.user = some u) :
    (ProtectedRoute auth p = .children ↔ roleSatisfies p u.role = true) ∧
      (roleSatisfies p u.role = false → ProtectedRoute auth p = .navigate "/") := by
  have hauth : auth.isAuthenticated = true := by
    simp [AuthSnapshot.isAuthenticated, hu]
  have hrole : auth.roleOfUser = some u.role := by
    simp [AuthSnapshot.roleOfUser, hu]
  unfold ProtectedRoute roleSatisfies
  rw [hl, hauth, hrole]
  cases p.requireAdmin <;> cases p.requireModerator <;>
    rcases hal : p.allowedRoles with _ | rs <;>
      cases u.role <;> simp [hal]

/-- Witness for C2: a concrete moderator is rendered the children of a
moderator route and redirected home from an admin-only route. -/
theorem protectedRoute_role_gate_witness :
    (ProtectedRoute ⟨some ⟨"u1", "m@x", "m@x", Role.moderator, "t"⟩, false⟩
        ⟨false, true, none⟩ = .children) ∧
      (ProtectedRoute ⟨some ⟨"u1", "m@x", "m@x", Role.moderator, "t"⟩, false⟩
        ⟨true, false, none⟩ = .navigate "/") := by
  constructor
  · exact (protectedRoute_role_gate ⟨some ⟨"u1", "m@x", "m@x", Role.moderator, "t"⟩, false⟩
      ⟨false, true, none⟩ ⟨"u1", "m@x", "m@x", Role.moderator, "t"⟩ rfl rfl).1.mpr (by decide)
  · exact (protectedRoute_role_gate ⟨some ⟨"u1", "m@x", "m@x", Role.moderator, "t"⟩, false⟩
      ⟨true, false, none⟩ ⟨"u1", "m@x", "m@x", Role.moderator, "t"⟩ rfl rfl).2 (by decide)

/-! ## API client response handling (`src/services/api.ts`)

Each operation performs one `fetch` and then inspects the response. The
response is modelled as its status and body text; the parsed JSON payload a
successful call returns is abstracted as the body text itself. Each `opNameRes`
definition is the response-handling tail of the corresponding source function:
the status tests and the exact error message it throws. -/

/-- An HTTP response as the client observes it: status code and body text. -/
structure HttpResponse where
  status : Nat
  body : String
deriving DecidableEq, Repr

/-- `response.ok` of the fetch API: status in the range 200–299. -/
def HttpResponse.ok (r : HttpResponse) : Bool :=
  200 ≤ r.status && r.status ≤ 299

/-- The error message template shared by the operations that report the
status: `` `Failed to <what>: ${response.status} - ${errorText}` ``. -/
def failMsg (what : String) (r : HttpResponse) : String :=
  "Failed to " ++ what ++ ": " ++ toString r.status ++ " - " ++ r.body

/-- `getBooks`: throws a fixed message on any non-ok response. -/
def getBooksRes (r : HttpResponse) : Except String String :=
  if !r.ok then .error "Failed to fetch books" else .ok r.body

/-- `getBook`: 404 is mapped to `null`; any other non-ok response throws a
fixed message; otherwise the parsed book is returned. -/
def getBookRes (r : HttpResponse) : Except String (Option String) :=
  if r.status == 404 then .ok none
  else if !r.ok then .error "Failed to fetch book"
  else .ok (some r.body)

/-- The response handling shared by every operation that reports the status:
throw `failMsg` on any non-ok response, return the parsed payload otherwise. -/
def statusRes (what : String) (r : HttpResponse) : Except String String :=
  if !r.ok then .error (failMsg what r) else .ok r.body

/-- `createBook`: throws with status and body on any non-ok response. -/
def createBookRes : HttpResponse → Except String String :=
  statusRes "create book"

/-- `updateBook`: throws with status and body on any non-ok response. -/
def updateBookRes : HttpResponse → Except String String :=
  statusRes "update book"

/-- `deleteBook`: throws with status and body on any non-ok response. -/
def deleteBookRes : HttpResponse → Except String String :=
  statusRes "delete book"

/-- `getRecommendations`: throws with status and body on any non-ok response. -/
def getRecommendationsRes : HttpResponse → Except String String :=
  statusRes "get recommendations"

/-- `getReadingLists`: throws with status and body on any non-ok response. -/
def getReadingListsRes : HttpResponse → Except String String :=
  statusRes "fetch reading lists"

/-- `createReadingList`: throws a fixed message on any non-ok response. -/
def createReadingListRes (r : HttpResponse) : Except String String :=
  if !r.ok then .error "Failed to create reading list" else .ok r.body

/-- `updateReadingList`: throws a fixed message on any non-ok response. -/
def updateReadingListRes (r : HttpResponse) : Except String String :=
  if !r.ok then .error "Failed to update reading list" else .ok r.body

/-- `deleteReadingList`: throws with status and body on any non-ok response. -/
def deleteReadingListRes : HttpResponse → Except String String :=
  statusRes "delete reading list"

/-- `addBookToReadingList`: throws with status and body on any non-ok
response. -/
def addBookToReadingListRes : HttpResponse → Except String String :=
  statusRes "add book to reading list"

/-- `removeBookFromReadingList`: throws with status and body on any non-ok
response. -/
def removeBookFromReadingListRes : HttpResponse → Except String String :=
  statusRes "remove book from reading list"

/-- `getReviews`: throws with status and body on any non-ok response. -/
def getReviewsRes : HttpResponse → Except String String :=
  statusRes "fetch reviews"

/-- `createReview`: throws with status and body on any non-ok response. -/
def createReviewRes : HttpResponse → Except String String :=
  statusRes "create review"

/-- `updateReview`: throws with status and body on any non-ok response. -/
def updateReviewRes : HttpResponse → Except String String :=
  statusRes "update review"

/-- `deleteReview`: throws with status and body on any non-ok response. -/
def deleteReviewRes : HttpResponse → Except String String :=
  statusRes "delete review"

/-- `getAdminMetrics`: throws with status and body on any non-ok response. -/
def getAdminMetricsRes : HttpResponse → Except String String :=
  statusRes "fetch admin metrics"

/-- The seventeen exported operations of `services/api.ts`. -/
inductive ApiOp where
  | getBooks | getBook | createBook | updateBook | deleteBook
  | getRecommendations | getReadingLists | createReadingList
  | updateReadingList | deleteReadingList
  | addBookToReadingList | removeBookFromReadingList
  | getReviews | createReview | updateReview | deleteReview
  | getAdminMetrics
deriving DecidableEq, Repr

/-- Uniform view of every operation's response handling. The payload type is
`Option String`: `getBook` alone can succeed with `none` (its `null` result);
every other operation's success value is wrapped in `some`. -/
def runOp : ApiOp → HttpResponse → Except String (Option String)
  | .getBooks, r => (getBooksRes r).map some
  | .getBook, r => getBookRes r
  | .createBook, r => (createBookRes r).map some
  | .updateBook, r => (updateBookRes r).map some
  | .deleteBook, r => (deleteBookRes r).map some
  | .getRecommendations, r => (getRecommendationsRes r).map some
  | .getReadingLists, r => (getReadingListsRes r).map some
  | .createReadingList, r => (createReadingListRes r).map some
  | .updateReadingList, r => (updateReadingListRes r).map some
  | .deleteReadingList, r => (deleteReadingListRes r).map some
  | .addBookToReadingList, r => (addBookToReadingListRes r).map some
  | .removeBookFromReadingList, r => (removeBookFromReadingListRes r).map some
  | .getReviews, r => (getReviewsRes r).map some
  | .createReview, r => (createReviewRes r).map some
  | .updateReview, r => (updateReviewRes r).map some
  | .deleteReview, r => (deleteReviewRes r).map some
  | .getAdminMetrics, r => (getAdminMetricsRes r).map some

/-- `s` contains `sub` as a contiguous substring. -/
def strContains (s sub : String) : Prop :=
  sub.toList <:+: s.toList

instance (s sub : String) : Decidable (strContains s sub) :=
  List.decidableInfix sub.toList s.toList

/-- A status-and-body error message contains both the decimal status and the
response body text as substrings. -/
theorem strContains_failMsg (what : String) (r : HttpResponse) :
    strContains (failMsg what r) (toString r.status) ∧
      strContains (failMsg what r) r.body := by
  constructor
  · exact ⟨("Failed to " ++ what ++ ": ").toList, (" - " ++ r.body).toList, by
      simp [failMsg, String.toList, String.data_append]⟩
  · exact ⟨("Failed to " ++ what ++ ": " ++ toString r.status ++ " - ").toList, [], by
      simp [failMsg, String.toList, String.data_append]⟩

/-- On a non-ok response, `statusRes` throws the status-and-body message. -/
theorem statusRes_error (what : String) (r : HttpResponse) (h : r.ok = false) :
    statusRes what r = .error (failMsg what r) := by
  simp [statusRes, h]

/-- On a non-ok response, the `statusRes`-based operations throw a message
containing the status and the body. -/
theorem statusRes_contains (what : String) (r : HttpResponse) (h : r.ok = false) :
    ∃ msg, (statusRes what r).map some = Except.error msg ∧
      strContains msg (toString r.status) ∧ strContains msg r.body :=
  ⟨failMsg what r, by simp [statusRes_error what r h, Except.map],
    (strContains_failMsg what r).1, (strContains_failMsg what r).2⟩

/-- Every operation except `getBook` fails on every non-ok response. -/
theorem runOp_isOk_false_of_not_ok (op : ApiOp) (r : HttpResponse)
    (h : r.ok = false) (hop : op ≠ ApiOp.getBook) :
    (runOp op r).isOk = false := by
  cases op <;>
    simp_all [runOp, getBooksRes, createBookRes, updateBookRes, deleteBookRes,
      getRecommendationsRes, getReadingListsRes, createReadingListRes,
      updateReadingListRes, deleteReadingListRes, addBookToReadingListRes,
      removeBookFromReadingListRes, getReviewsRes, createReviewRes,
      updateReviewRes, deleteReviewRes, getAdminMetricsRes, statusRes,
      Except.map, Except.isOk, Except.toBool]

/-- A 404 response is not ok. -/
theorem not_ok_of_status_404 (r : HttpResponse) (h : r.status = 404) :
    r.ok = false := by
  simp [HttpResponse.ok, h]

/-- C3 counterexample: `getBooks` on a 500 response with body `"oops"` throws
the fixed message `"Failed to fetch books"`, which carries neither the HTTP
status nor the response body text — error reporting is not uniform across the
API client. -/
theorem getBooks_error_message_counterexample :
    runOp ApiOp.getBooks ⟨500, "oops"⟩ = .error "Failed to fetch books" ∧
      ¬ ∃ msg, runOp ApiOp.getBooks ⟨500, "oops"⟩ = Except.error msg ∧
        strContains msg "500" ∧ strContains msg "oops" := by
  refine ⟨rfl, ?_⟩
  rintro ⟨msg, hmsg, h500, _⟩
  have hmsg' : Except.error (ε := String) (α := Option String) "Failed to fetch books"
      = Except.error msg := hmsg
  have hm : msg = "Failed to fetch books" :=
    ((Except.error.injEq _ _).mp hmsg').symm
  subst hm
  exact absurd h500 (by decide)

/-- C3 (amended): every operation other than `getBook` throws on every non-ok
response (`getBook` maps 404 to a success, see its own theorem), and every
operation outside {`getBooks`, `getBook`, `createReadingList`,
`updateReadingList`} throws a message carrying both the HTTP status and the
response body text; those four throw fixed messages. -/
theorem apiOps_error_handling (op : ApiOp) (r : HttpResponse) (h : r.ok = false) :
    (op ≠ ApiOp.getBook → (runOp op r).isOk = false) ∧
      (r.status ≠ 404 → (runOp op r).isOk = false) ∧
      (op ∉ [ApiOp.getBooks, ApiOp.getBook, ApiOp.createReadingList,
          ApiOp.updateReadingList] →
        ∃ msg, runOp op r = Except.error msg ∧
          strContains msg (toString r.status) ∧ strContains msg r.body) := by
  refine ⟨fun hop => runOp_isOk_false_of_not_ok op r h hop, fun h404 => ?_, fun hmem => ?_⟩
  · by_cases hop : op = ApiOp.getBook
    · subst hop
      simp [runOp, getBookRes, h404, h, Except.isOk, Except.toBool]
    · exact runOp_isOk_false_of_not_ok op r h hop
  · cases op <;> simp only [List.mem_cons, List.not_mem_nil, or_false] at hmem <;>
      first
        | exact statusRes_contains _ r h
        | simp at hmem

/-- Witness for C3 (amended): `createReview` on a concrete 500 response throws
an error message containing the status and the body. -/
theorem apiOps_error_handling_witness :
    (runOp ApiOp.createReview ⟨500, "oops"⟩).isOk = false ∧
      ∃ msg, runOp ApiOp.createReview ⟨500, "oops"⟩ = Except.error msg ∧
        strContains msg (toString ((500 : Nat))) ∧ strContains msg "oops" :=
  ⟨(apiOps_error_handling ApiOp.createReview ⟨500, "oops"⟩ rfl).1 (by decide),
   (apiOps_error_handling ApiOp.createReview ⟨500, "oops"⟩ rfl).2.2 (by decide)⟩

/-- C10: `getBook` returns `null` exactly on a 404 response, returns the
parsed book on success, throws on every other non-success status, and is the
only operation whose result at a 404 response is not an error. -/
theorem getBook_notFound_handling (r : HttpResponse) :
    (getBookRes r = .ok none ↔ r.status = 404) ∧
      (r.status ≠ 404 → r.ok = true → getBookRes r = .ok (some r.body)) ∧
      (r.status ≠ 404 → r.ok = false → (getBookRes r).isOk = false) ∧
      (∀ op : ApiOp, op ≠ ApiOp.getBook → r.status = 404 →
        (runOp op r).isOk = false) := by
  refine ⟨?_, fun h404 hok => ?_, fun h404 hok => ?_, fun op hop h404 => ?_⟩
  · by_cases h : r.status = 404 <;> by_cases hok : r.ok = true <;>
      simp_all [getBookRes]
  · simp [getBookRes, h404, hok]
  · simp [getBookRes, h404, hok, Except.isOk, Except.toBool]
  · exact runOp_isOk_false_of_not_ok op r (not_ok_of_status_404 r h404) hop

/-- Witness for C10: a concrete 404 response yields `null` from `getBook` but
an error from `getBooks`; a concrete 200 response yields the book. -/
theorem getBook_notFound_handling_witness :
    getBookRes ⟨404, "not found"⟩ = .ok none ∧
      getBookRes ⟨200, "bk"⟩ = .ok (some "bk") ∧
      (runOp ApiOp.getBooks ⟨404, "not found"⟩).isOk = false :=
  ⟨(getBook_notFound_handling ⟨404, "not found"⟩).1.mpr rfl,
   (getBook_notFound_handling ⟨200, "bk"⟩).2.1 (by decide) rfl,
   (getBook_notFound_handling ⟨404, "not found"⟩).2.2.2 ApiOp.getBooks (by decide) rfl⟩

/-! ## Reading-list mutation requests (`src/services/api.ts`)

`addBookToReadingList` and `removeBookFromReadingList` each issue one `PUT`
to the list's endpoint. The JSON body they build is modelled explicitly so
that its shape can be compared with the spec's description of it. -/

/-- A JSON value, as `JSON.stringify` serialises the request bodies. -/
inductive Json where
  | str (s : String)
  | arr (elems : List Json)
  | obj (fields : List (String × Json))

/-- Field lookup in a JSON object. -/
def Json.lookup (j : Json) (k : String) : Option Json :=
  match j with
  | .obj fields => fields.lookup k
  | _ => none

/-- An HTTP request as the client builds it: method, path, JSON body. -/
structure HttpRequest where
  method : String
  path : String
  body : Json

/-- The request `addBookToReadingList(listId, bookId)` sends:
`PUT /reading-lists/${listId}` with body
`{ userId, bookIds: { action: 'add', bookId } }`. -/
def addBookToReadingListRequest (userId listId bookId : String) : HttpRequest :=
  { method := "PUT"
    path := "/reading-lists/" ++ listId
    body := .obj [("userId", .str userId),
                  ("bookIds", .obj [("action", .str "add"), ("bookId", .str bookId)])] }

/-- The request `removeBookFromReadingList(listId, bookId)` sends:
`PUT /reading-lists/${listId}` with body
`{ userId, bookIds: { action: 'remove', bookId } }`. -/
def removeBookFromReadingListRequest (userId listId bookId : String) : HttpRequest :=
  { method := "PUT"
    path := "/reading-lists/" ++ listId
    body := .obj [("userId", .str userId),
                  ("bookIds", .obj [("action", .str "remove"), ("bookId", .str bookId)])] }

/-- The spec's words for the mutation requests: an update whose `bookIds`
field is the whole book-id list (an array of strings) that is to replace the
stored list. -/
def replacesWholeBookIdList (req : HttpRequest) : Prop :=
  ∃ ids : List String, req.body.lookup "bookIds" = some (.arr (ids.map .str))

/-- C4 counterexample: the body sent by `addBookToReadingList "u1" "l1" "b1"`
(and its remove counterpart) carries an `{action, bookId}` object under
`bookIds`, not a book-id array — the request does not carry a whole
replacement list. -/
theorem readingList_mutation_not_whole_list_counterexample :
    ¬ replacesWholeBookIdList (addBookToReadingListRequest "u1" "l1" "b1") ∧
      ¬ replacesWholeBookIdList (removeBookFromReadingListRequest "u1" "l1" "b1") := by
  constructor <;>
  · rintro ⟨ids, hids⟩
    simp [replacesWholeBookIdList, addBookToReadingListRequest,
      removeBookFromReadingListRequest, Json.lookup, List.lookup] at hids

/-- C4 (amended): both mutation operations send a `PUT` update to the list's
endpoint whose body names the user and a single-book `add`/`remove` action
under `bookIds`; the whole book-id list is never part of the request. -/
theorem readingList_mutation_requests (userId listId bookId : String) :
    (addBookToReadingListRequest userId listId bookId).method = "PUT" ∧
      (addBookToReadingListRequest userId listId bookId).path
        = "/reading-lists/" ++ listId ∧
      (addBookToReadingListRequest userId listId bookId).body.lookup "bookIds"
        = some (.obj [("action", .str "add"), ("bookId", .str bookId)]) ∧
      (removeBookFromReadingListRequest userId listId bookId).method = "PUT" ∧
      (removeBookFromReadingListRequest userId listId bookId).path
        = "/reading-lists/" ++ listId ∧
      (removeBookFromReadingListRequest userId listId bookId).body.lookup "bookIds"
        = some (.obj [("action", .str "remove"), ("bookId", .str bookId)]) ∧
      ¬ replacesWholeBookIdList (addBookToReadingListRequest userId listId bookId) ∧
      ¬ replacesWholeBookIdList (removeBookFromReadingListRequest userId listId bookId) := by
  refine ⟨rfl, rfl, ?_, rfl, rfl, ?_, ?_, ?_⟩
  · simp [addBookToReadingListRequest, Json.lookup, List.lookup]
  · simp [removeBookFromReadingListRequest, Json.lookup, List.lookup]
  · rintro ⟨ids, hids⟩
    simp [replacesWholeBookIdList, addBookToReadingListRequest,
      Json.lookup, List.lookup] at hids
  · rintro ⟨ids, hids⟩
    simp [replacesWholeBookIdList, removeBookFromReadingListRequest,
      Json.lookup, List.lookup] at hids

/-- Witness for C4 (amended): the concrete add request for book `b1` on list
`l1` is a `PUT` to that list's path with the single-book action body. -/
theorem readingList_mutation_requests_witness :
    (addBookToReadingListRequest "u1" "l1" "b1").method = "PUT" ∧
      (addBookToReadingListRequest "u1" "l1" "b1").path = "/reading-lists/" ++ "l1" ∧
      (addBookToReadingListRequest "u1" "l1" "b1").body.lookup "bookIds"
        = some (.obj [("action", .str "add"), ("bookId", .str "b1")]) :=
  ⟨(readingList_mutation_requests "u1" "l1" "b1").1,
   (readingList_mutation_requests "u1" "l1" "b1").2.1,
   (readingList_mutation_requests "u1" "l1" "b1").2.2.1⟩

/-! ## Reading-list selector (`ReadingListSelector`) -/

/-- What the selector renders next to one reading list: the green
"Already added" indicator (no click handler) or the "Add to List" button
(whose click handler calls `addBookToReadingList(list.id, bookId)`). -/
inductive SelectorEntry where
  | alreadyAdded
  | addButton (listId : String) (listName : String)
deriving DecidableEq, Repr

/-- The per-list rendering decision of `ReadingListSelector`:
`const isBookInList = list.bookIds?.includes(bookId)` selects between the
indicator and the button. -/
def selectorEntry (l : ReadingList) (bookId : String) : SelectorEntry :=
  if l.bookIds.contains bookId then .alreadyAdded
  else .addButton l.id l.name

/-- Whether an add request can be issued for this list: only the add button
is wired to `handleAddToList`, which calls `addBookToReadingList`. -/
def selectorIssuesAddRequest (l : ReadingList) (bookId : String) : Bool :=
  match selectorEntry l bookId with
  | .addButton _ _ => true
  | .alreadyAdded => false

/-- C5: a list already containing the selected book id shows the
"Already added" indicator instead of the add button, and no add request can
be issued for it; conversely the indicator appears only for such lists. -/
theorem selector_already_added (l : ReadingList) (bookId : String) :
    (selectorEntry l bookId = .alreadyAdded ↔ bookId ∈ l.bookIds) ∧
      (bookId ∈ l.bookIds → selectorIssuesAddRequest l bookId = false) := by
  by_cases h : l.bookIds.contains bookId <;>
    simp_all [selectorEntry, selectorIssuesAddRequest, List.contains, List.elem_iff]

/-- Witness for C5: a concrete list containing `b1` renders the indicator and
issues no add request for `b1`. -/
theorem selector_already_added_witness :
    selectorEntry ⟨"l1", "u1", "favs", "", ["b1", "b2"]⟩ "b1" = .alreadyAdded ∧
      selectorIssuesAddRequest ⟨"l1", "u1", "favs", "", ["b1", "b2"]⟩ "b1" = false :=
  ⟨(selector_already_added ⟨"l1", "u1", "favs", "", ["b1", "b2"]⟩ "b1").1.mpr (by decide),
   (selector_already_added ⟨"l1", "u1", "favs", "", ["b1", "b2"]⟩ "b1").2 (by decide)⟩

/-! ## Review submission pre-checks (`src/components/books/WriteReview.tsx`) -/

/-- The observable outcome of `handleSubmit`: an `alert` with its message, or
the `createReview(bookId, rating, comment)` network call. -/
inductive SubmitOutcome where
  | alert (msg : String)
  | createReviewCall (bookId : String) (rating : Nat) (comment : String)
deriving DecidableEq, Repr

/-- `comment.trim()` — JavaScript's `String.prototype.trim`: strip whitespace
from both ends (structurally recursive so that proofs can evaluate it). -/
def jsTrim (s : String) : String :=
  ⟨((s.toList.dropWhile Char.isWhitespace).reverse.dropWhile Char.isWhitespace).reverse⟩

/-- `handleSubmit` of `WriteReview`, check for check: not authenticated,
`rating === 0`, empty trimmed comment — each alerts and returns before the
network call; otherwise `createReview` is invoked. -/
def handleSubmit (isAuthenticated : Bool) (bookId : String) (rating : Nat)
    (comment : String) : SubmitOutcome :=
  if isAuthenticated = false then .alert "Please log in to write a review"
  else if rating = 0 then .alert "Please select a rating"
  else if jsTrim comment = "" then .alert "Please write a comment"
  else .createReviewCall bookId rating comment

/-- C6: a zero rating or a comment that trims to empty is always rejected
with an alert before any network call, and `createReview` is reached exactly
when the submitter is authenticated, the rating is non-zero and the trimmed
comment is non-empty. -/
theorem writeReview_client_validation (isAuth : Bool) (bookId : String)
    (rating : Nat) (comment : String) :
    (rating = 0 ∨ jsTrim comment = "" →
      ∃ m, handleSubmit isAuth bookId rating comment = .alert m) ∧
      ((∃ b rt c, handleSubmit isAuth bookId rating comment = .createReviewCall b rt c) ↔
        isAuth = true ∧ rating ≠ 0 ∧ jsTrim comment ≠ "") := by
  cases isAuth <;> by_cases hr : rating = 0 <;> by_cases hc : jsTrim comment = "" <;>
    simp [handleSubmit, hr, hc]

/-- Witness for C6: a zero-rating submission alerts; an authenticated
submission with rating 4 and a non-blank comment reaches `createReview`. -/
theorem writeReview_client_validation_witness :
    (∃ m, handleSubmit true "bk" 0 "fine book" = .alert m) ∧
      ∃ b rt c, handleSubmit true "bk" 4 " great read " = .createReviewCall b rt c :=
  ⟨(writeReview_client_validation true "bk" 0 "fine book").1 (Or.inl rfl),
   (writeReview_client_validation true "bk" 4 " great read ").2.mpr
     ⟨rfl, by decide, by decide⟩⟩

/-! ## Sign-up and email verification flow
(`src/contexts/AuthContext.tsx`, `VerifyEmail` page, `EmailVerification.tsx`) -/

/-- The identity service's answer to `signUp` (the field `signup` inspects). -/
structure SignUpResult where
  isSignUpComplete : Bool
deriving DecidableEq, Repr

/-- What `signup` returns to its caller. -/
structure SignupReturn where
  needsVerification : Bool
deriving DecidableEq, Repr

/-- `signup` of `AuthContext`: on a successful identity-service sign-up it
returns `needsVerification: !result.isSignUpComplete`. -/
def signup (result : SignUpResult) : SignupReturn :=
  { needsVerification := !result.isSignUpComplete }

/-- Where the signup page sends the browser after a successful sign-up. -/
inductive SignupNav where
  | toVerification (email : String)
  | stay
deriving DecidableEq, Repr

/-- Modelled from the spec: the signup page component itself is not among the
source files (only `AuthContext.signup` and the `VerifyEmail` page are). Per
the spec, a successful sign-up that requires email confirmation transitions
the UI to the verification step with the submitted email carried forward, and
one that does not require confirmation does not. -/
def signupPageNavigate (email : String) (ret : SignupReturn) : SignupNav :=
  if ret.needsVerification then .toVerification email else .stay

/-- What the `VerifyEmail` page renders. -/
inductive VerifyEmailRender where
  | redirectToSignup
  | renderVerification (email : String)
deriving DecidableEq, Repr

/-- The `VerifyEmail` page: reads `location.state?.email` and redirects to
`/signup` when `!email` (state absent or email the empty string); otherwise
renders the verification form for that email. -/
def VerifyEmail (stateEmail : Option String) : VerifyEmailRender :=
  match stateEmail with
  | none => .redirectToSignup
  | some e => if e = "" then .redirectToSignup else .renderVerification e

/-- C7: `signup` reports `needsVerification` exactly when the identity
service reports the sign-up as not complete; the signup page then moves to
the verification step carrying the submitted email, and stays put otherwise;
the verification page redirects back to signup when no email is provided. -/
theorem signup_verification_flow (result : SignUpResult) (email : String) :
    ((signup result).needsVerification = true ↔ result.isSignUpComplete = false) ∧
      (result.isSignUpComplete = false →
        signupPageNavigate email (signup result) = .toVerification email) ∧
      (result.isSignUpComplete = true →
        signupPageNavigate email (signup result) = .stay) ∧
      VerifyEmail none = .redirectToSignup := by
  obtain ⟨c⟩ := result
  cases c <;> simp [signup, signupPageNavigate, VerifyEmail]

/-- Witness for C7: a concrete incomplete sign-up moves to verification with
the email, a complete one stays, and the email-less verification page
redirects. -/
theorem signup_verification_flow_witness :
    signupPageNavigate "a@b.co" (signup ⟨false⟩) = .toVerification "a@b.co" ∧
      signupPageNavigate "a@b.co" (signup ⟨true⟩) = .stay ∧
      VerifyEmail none = .redirectToSignup :=
  ⟨(signup_verification_flow ⟨false⟩ "a@b.co").2.1 rfl,
   (signup_verification_flow ⟨true⟩ "a@b.co").2.2.1 rfl,
   (signup_verification_flow ⟨true⟩ "a@b.co").2.2.2⟩

/-! ## Email-verification error mapping
(`handleVerifyEmail` in `src/components/auth/EmailVerification.tsx`) -/

/-- The Cognito error mapping of `handleVerifyEmail`: the thrown error's
`name` selects one of four fixed user-facing messages. -/
def verifyEmailErrorMessage (errorName : String) : String :=
  if errorName = "CodeMismatchException" then
    "Invalid verification code. Please check and try again."
  else if errorName = "ExpiredCodeException" then
    "Verification code has expired. Please request a new one."
  else if errorName = "LimitExceededException" then
    "Too many attempts. Please wait before trying again."
  else
    "Failed to verify email. Please try again."

/-- C8: verification failures map by the error's named kind — code mismatch,
expired code and rate limiting get their dedicated messages, every other
error the generic one — so every message shown is from a fixed set of four. -/
theorem verifyEmail_error_mapping (errorName : String) :
    verifyEmailErrorMessage "CodeMismatchException"
        = "Invalid verification code. Please check and try again." ∧
      verifyEmailErrorMessage "ExpiredCodeException"
        = "Verification code has expired. Please request a new one." ∧
      verifyEmailErrorMessage "LimitExceededException"
        = "Too many attempts. Please wait before trying again." ∧
      (errorName ≠ "CodeMismatchException" → errorName ≠ "ExpiredCodeException" →
        errorName ≠ "LimitExceededException" →
        verifyEmailErrorMessage errorName = "Failed to verify email. Please try again.") ∧
      verifyEmailErrorMessage errorName ∈
        ["Invalid verification code. Please check and try again.",
         "Verification code has expired. Please request a new one.",
         "Too many attempts. Please wait before trying again.",
         "Failed to verify email. Please try again."] := by
  refine ⟨by decide, by decide, by decide, fun h1 h2 h3 => ?_, ?_⟩
  · simp [verifyEmailErrorMessage, h1, h2, h3]
  · by_cases h1 : errorName = "CodeMismatchException" <;>
      by_cases h2 : errorName = "ExpiredCodeException" <;>
        by_cases h3 : errorName = "LimitExceededException" <;>
          simp [verifyEmailErrorMessage, h1, h2, h3]

/-- Witness for C8: an unrecognised error kind gets the generic message. -/
theorem verifyEmail_error_mapping_witness :
    verifyEmailErrorMessage "NetworkError" = "Failed to verify email. Please try again." :=
  (verifyEmail_error_mapping "NetworkError").2.2.2.1
    (by decide) (by decide) (by decide)

/-! ## Auth state transitions (`src/contexts/AuthContext.tsx`) -/

/-- `logout`: `await signOut(); setUser(null)` inside `try`/`catch` — the
user is cleared only when the identity-service sign-out succeeds; a failed
sign-out is logged and leaves the auth state unchanged. -/
def logout (current : Option User) (signOutSucceeds : Bool) : Option User :=
  if signOutSucceeds then none else current

/-- `getUserRole`: role from the token's `cognito:groups` claim, checked in
order of precedence `admin`, then `moderator`, defaulting to `user`. -/
def getUserRole (groups : List String) : Role :=
  if groups.contains "admin" then .admin
  else if groups.contains "moderator" then .moderator
  else .user

/-- What `getCurrentUser` yields on success: the user id and the sign-in
login id (used as email and display name). -/
structure CurrentUserInfo where
  userId : String
  loginId : Option String
deriving DecidableEq, Repr

/-- The startup `checkAuth` effect: on a successful `getCurrentUser` it
builds the user record (`email` defaulting to `''`, name = email, role from
the group claims, `createdAt` from the clock); on failure it sets the user to
`null`; either way `isLoading` ends `false`. Result: `(user, isLoading)`. -/
def checkAuth (getCurrentUserResult : Except String CurrentUserInfo)
    (groups : List String) (now : String) : Option User × Bool :=
  match getCurrentUserResult with
  | .error _ => (none, false)
  | .ok info =>
      let email := info.loginId.getD ""
      (some ⟨info.userId, email, email, getUserRole groups, now⟩, false)

/-- C9 counterexample: when the identity-service sign-out fails, `logout`
does not clear the user — the operation does not unconditionally transition
the state to unauthenticated. -/
theorem logout_failure_counterexample :
    logout (some ⟨"u1", "e@x", "e@x", Role.user, "t"⟩) false
        = some ⟨"u1", "e@x", "e@x", Role.user, "t"⟩ ∧
      logout (some ⟨"u1", "e@x", "e@x", Role.user, "t"⟩) false ≠ none := by
  exact ⟨rfl, by simp [logout]⟩

/-- C9 (amended): `logout` clears the user whenever the sign-out call
succeeds (a failed sign-out leaves the state unchanged), and the startup
session check sets the user to `null` whenever retrieving the current user
fails, ending the loading state either way. -/
theorem auth_unauthenticated_transitions (u : Option User) (e : String)
    (groups : List String) (now : String)
    (res : Except String CurrentUserInfo) :
    logout u true = none ∧
      logout u false = u ∧
      checkAuth (.error e) groups now = (none, false) ∧
      (checkAuth res groups now).2 = false := by
  refine ⟨rfl, rfl, rfl, ?_⟩
  cases res <;> rfl

end LibraryRec
